import Mathlib

/-!
Verification development for the Cawpy copy-trading engine.

Shallow embedding of the guarded executor (src/execution/guardedExecutor.ts),
the market-viability check (src/utils/marketViability.ts), the edge filters and
lease manager (src/utils/edgeFilters.ts) and the reconciliation service
(src/services/reconciliation.ts).

Modelling conventions, shared by all definitions below:

* JavaScript numbers are modelled as exact rationals (`Rat`).  The source only
  adds, subtracts, multiplies, divides and compares prices and sizes, so the
  rational model matches the source except for binary floating-point rounding,
  which is out of scope here.  One divergence is noted where it occurs:
  division by zero is `0` in `Rat` while JavaScript yields `Infinity`/`NaN`;
  the only reachable spot (the spread computation with a zero best bid) is
  special-cased to follow the JavaScript behaviour.
* `Date.now()` is a `now : Rat` parameter (epoch milliseconds), held constant
  for the duration of one call.
* Asynchronous effects (order-book fetches, order submissions, database reads
  and atomic updates) are supplied through explicit environment values: an
  order book per loop iteration, a post-order response per submitted order,
  a snapshot of the persisted trade record, and booleans for the optional
  context callbacks.  Logging is dropped; `try/catch` around the execution
  loop is not modelled (the pure model cannot throw).
* Optional / nullable TypeScript fields become `Option`.  Where the source
  relies on JavaScript falsiness (`!x` is true for `0`), the zero case is
  modelled explicitly and noted at the definition.
* Interpolated numeric fragments inside reason strings (for example the
  formatted bps amount in the slippage reason) are elided: the stable prefix
  of each reason string is kept as a constant.  Fixed reason strings are kept
  verbatim.
-/

namespace Cawpy

/-- Order side as used by the guarded executor (`OrderSide` in the source). -/
inductive OrderSide where
  | BUY
  | SELL
  | MERGE
deriving DecidableEq, Repr

/-- Lifecycle states of a trade record (see the spec's data model and the
`lifecycleState` field used throughout the source). -/
inductive LifecycleState where
  | detected
  | claimed
  | executing
  | executed
  | skipped
  | failed
  | reconciled
deriving DecidableEq, Repr

/-- One price level of the order book; the source parses decimal strings, the
model carries the parsed rational directly. -/
structure OrderBookLevel where
  price : Rat
  size : Rat
deriving DecidableEq, Repr

/-- Order book returned by `clobClient.getOrderBook`. -/
structure OrderBook where
  bids : List OrderBookLevel
  asks : List OrderBookLevel
deriving DecidableEq, Repr

/-- Relevant configuration values read from `ENV` by the embedded modules.
The `Option` fields are the environment variables read with an `??` default. -/
structure Env where
  RETRY_LIMIT : Nat
  MAX_SLIPPAGE_BPS : Rat
  TOO_OLD_TIMESTAMP_HOURS : Rat
  VIABILITY_PRICE_LIMIT : Option Rat
  VIABILITY_MIN_TIME_BEFORE_END_MINUTES : Option Rat
  VIABILITY_MAX_SPREAD_BPS : Option Rat
  VIABILITY_MIN_DEPTH_USD : Option Rat
  EDGE_MIN_POSITION_DELTA_USD : Option Rat
  EDGE_REQUIRE_POSITION_FOR_SELL : Option Bool
  EDGE_MIN_TRADE_PERCENT_OF_POSITION : Option Rat
deriving Repr

/-- Constant `HARD_CAP_MAX_SLIPPAGE_BPS` from guardedExecutor.ts. -/
def HARD_CAP_MAX_SLIPPAGE_BPS : Rat := 1000

/-- Constant `EFFECTIVE_MAX_SLIPPAGE_BPS = Math.min(MAX_SLIPPAGE_BPS, 1000)`. -/
def effectiveMaxSlippageBps (env : Env) : Rat :=
  min env.MAX_SLIPPAGE_BPS HARD_CAP_MAX_SLIPPAGE_BPS

/-- Constant `MIN_ORDER_SIZE_USD` from guardedExecutor.ts. -/
def MIN_ORDER_SIZE_USD : Rat := 1

/-- Constant `MIN_ORDER_SIZE_TOKENS` from guardedExecutor.ts. -/
def MIN_ORDER_SIZE_TOKENS : Rat := 1

/-- Input of the guarded executor (`OrderRequest` in the source).  `endDate`
is the parsed epoch-millisecond value of the source's ISO string; `tradeId`
is the ObjectId rendered as a string. -/
structure OrderRequest where
  side : OrderSide
  tokenId : String
  amount : Rat
  traderPrice : Option Rat
  endDate : Option Rat
  marketSlug : Option String
  myPositionSize : Option Rat
  myPositionValue : Option Rat
  tradeId : Option String
  tradeUsdcSize : Option Rat
  tradeTimestamp : Option Rat
  userAddress : Option String
deriving DecidableEq, Repr

/-- Output of the guarded executor (`OrderResult` in the source). -/
structure OrderResult where
  success : Bool
  executed : Bool
  skipped : Bool
  failed : Bool
  filledSize : Option Rat := none
  filledTokens : Option Rat := none
  avgFillPrice : Option Rat := none
  reason : Option String := none
  isRetryable : Option Bool := none
  orderId : Option String := none
  idempotencyKey : Option String := none
deriving DecidableEq, Repr

/-- Verdict of one gate (`GateCheckResult` in the source).  The source leaves
`shouldWarnOnly` undefined except in the warn-only viability branch; the model
uses `false` as the default. -/
structure GateCheckResult where
  passed : Bool
  reason : Option String := none
  shouldWarnOnly : Bool := false
deriving DecidableEq, Repr

/-- Gate 0 of guardedExecutor.ts: trade-timestamp freshness, failing closed on
a missing timestamp.  Timestamps below `1e12` are treated as seconds and
scaled to milliseconds, exactly as in the source. -/
def checkTimestampGate (env : Env) (now : Rat) (request : OrderRequest) :
    GateCheckResult :=
  match request.tradeId with
  | none => { passed := true }
  | some _ =>
    match request.tradeTimestamp with
    | none => { passed := false, reason := some "missing_trade_timestamp" }
    | some ts =>
      let timestampMs := if ts < 1000000000000 then ts * 1000 else ts
      let maxAgeMs := env.TOO_OLD_TIMESTAMP_HOURS * 60 * 60 * 1000
      if now - timestampMs ≤ maxAgeMs then { passed := true }
      else { passed := false, reason := some "trade_timestamp_too_old" }

/-- Gate 5 of guardedExecutor.ts: the slippage guard.  The source's
`!traderPrice || traderPrice <= 0` treats an absent price and a zero price
(JavaScript falsy) and a negative price alike: the check is skipped. -/
def checkSlippageGate (env : Env) (side : OrderSide) (currentPrice : Rat)
    (traderPrice : Option Rat) : GateCheckResult :=
  match traderPrice with
  | none => { passed := true }
  | some tp =>
    if tp ≤ 0 then { passed := true }
    else
      let slippageBps :=
        if side = OrderSide.BUY then (currentPrice - tp) / tp * 10000
        else (tp - currentPrice) / tp * 10000
      if effectiveMaxSlippageBps env < slippageBps then
        { passed := false, reason := some "slippage_exceeds_max_bps" }
      else { passed := true }

/-- Gate 3 of guardedExecutor.ts: SELL/MERGE requires a held position.  The
source's `!request.myPositionSize || request.myPositionSize <= 0` rejects an
absent size and a zero size (falsy) and a negative size. -/
def checkPositionRequiredForSell (request : OrderRequest) : GateCheckResult :=
  if request.side = OrderSide.SELL ∨ request.side = OrderSide.MERGE then
    match request.myPositionSize with
    | none => { passed := false, reason := some "no_position_to_sell" }
    | some p =>
      if p ≤ 0 then { passed := false, reason := some "no_position_to_sell" }
      else { passed := true }
  else { passed := true }

/-- Gate 4 of guardedExecutor.ts: minimum order sizing.  The numeric suffix of
the source's reason string is elided. -/
def checkOrderSizing (request : OrderRequest) : GateCheckResult :=
  if request.side = OrderSide.BUY then
    if request.amount < MIN_ORDER_SIZE_USD then
      { passed := false, reason := some "order_size_below_minimum_usd" }
    else { passed := true }
  else
    if request.amount < MIN_ORDER_SIZE_TOKENS then
      { passed := false, reason := some "order_size_below_minimum_tokens" }
    else { passed := true }

/-! ### Market viability (src/utils/marketViability.ts) -/

/-- Viability configuration after applying the hard caps. -/
structure ViabilityConfig where
  priceLimit : Rat
  minTimeBeforeEndMinutes : Rat
  maxSpreadBps : Rat
  minDepthUsd : Rat
deriving DecidableEq, Repr

/-- Function `getViabilityConfig` with the hard caps
`HARD_CAP_PRICE_LIMIT = 0.95`, `HARD_CAP_MIN_TIME_MINUTES = 5`,
`HARD_CAP_MAX_SPREAD_BPS = 2000`, `HARD_CAP_MIN_DEPTH_USD = 0.5`. -/
def getViabilityConfig (env : Env) : ViabilityConfig :=
  { priceLimit := min (env.VIABILITY_PRICE_LIMIT.getD (95 / 100)) (95 / 100)
    minTimeBeforeEndMinutes :=
      max (env.VIABILITY_MIN_TIME_BEFORE_END_MINUTES.getD 60) 5
    maxSpreadBps := min (env.VIABILITY_MAX_SPREAD_BPS.getD 500) 2000
    minDepthUsd := max (env.VIABILITY_MIN_DEPTH_USD.getD 10) (1 / 2) }

/-- Price-extreme check record inside `ViabilityResult.checks`. -/
structure PriceCheck where
  passed : Bool
  value : Option Rat := none
  threshold : Rat
deriving DecidableEq, Repr

/-- Time-to-end check record inside `ViabilityResult.checks`. -/
structure TimeCheck where
  passed : Bool
  minutesRemaining : Option Rat := none
  threshold : Rat
deriving DecidableEq, Repr

/-- Spread check record inside `ViabilityResult.checks`. -/
structure SpreadCheck where
  passed : Bool
  spreadBps : Option Rat := none
  threshold : Rat
deriving DecidableEq, Repr

/-- Depth check record inside `ViabilityResult.checks`. -/
structure DepthCheck where
  passed : Bool
  depthUsd : Option Rat := none
  threshold : Rat
deriving DecidableEq, Repr

/-- The four sub-checks of a viability result. -/
structure ViabilityChecks where
  priceExtreme : PriceCheck
  timeToEnd : TimeCheck
  spread : SpreadCheck
  depth : DepthCheck
deriving DecidableEq, Repr

/-- Result of `checkMarketViability`.  The interpolated reason strings of the
source are replaced by stable constants. -/
structure ViabilityResult where
  viable : Bool
  reason : String
  checks : ViabilityChecks
deriving DecidableEq, Repr

/-- All-passed check record, as initialised at the top of
`checkMarketViability` before any check runs. -/
def initialViabilityChecks (config : ViabilityConfig) : ViabilityChecks :=
  { priceExtreme := { passed := true, threshold := config.priceLimit }
    timeToEnd := { passed := true, threshold := config.minTimeBeforeEndMinutes }
    spread := { passed := true, threshold := config.maxSpreadBps }
    depth := { passed := true, threshold := config.minDepthUsd } }

/-- Function `checkMarketViability`.  `book = none` models the order-book
fetch throwing, which the source catches and converts into a non-viable
result whose individual checks all still read `passed = true`.  `endDate` is
the parsed end time in epoch milliseconds.

Divergence note: for a zero best-bid price JavaScript computes an `Infinity`
spread, which exceeds every cap; the model fails the spread check explicitly
in that case (the recorded `spreadBps` value is left `none` there). -/
def checkMarketViability (env : Env) (now : Rat) (book : Option OrderBook)
    (endDate : Option Rat) (isSellReducingExposure : Bool) : ViabilityResult :=
  let config := getViabilityConfig env
  match book with
  | none =>
    { viable := false, reason := "failed_to_check_viability"
      checks := initialViabilityChecks config }
  | some ob =>
    let bestBid := ob.bids.head?
    let bestAsk := ob.asks.head?
    let bestBidPrice := (bestBid.map (fun l => l.price)).getD 0
    let bestAskPrice := (bestAsk.map (fun l => l.price)).getD 1
    if config.priceLimit ≤ bestBidPrice then
      { viable := false, reason := "market_appears_resolved_bid"
        checks :=
          { initialViabilityChecks config with
            priceExtreme :=
              { passed := false, value := some bestBidPrice
                threshold := config.priceLimit } } }
    else if bestAskPrice ≤ 1 - config.priceLimit then
      { viable := false, reason := "market_appears_resolved_ask"
        checks :=
          { initialViabilityChecks config with
            priceExtreme :=
              { passed := false, value := some bestAskPrice
                threshold := 1 - config.priceLimit } } }
    else
      let checksPrice :=
        { initialViabilityChecks config with
          priceExtreme :=
            { passed := true, value := some (max bestBidPrice (1 - bestAskPrice))
              threshold := config.priceLimit } }
      let minutesRemaining := endDate.map (fun e => (e - now) / (1000 * 60))
      let checksTime :=
        { checksPrice with
          timeToEnd :=
            { checksPrice.timeToEnd with minutesRemaining := minutesRemaining } }
      if (match minutesRemaining with
          | some m => decide (m < config.minTimeBeforeEndMinutes) &&
              !isSellReducingExposure
          | none => false) then
        { viable := false, reason := "too_close_to_market_end"
          checks :=
            { checksTime with
              timeToEnd :=
                { passed := false, minutesRemaining := minutesRemaining
                  threshold := config.minTimeBeforeEndMinutes } } }
      else
        let spreadFails : Bool :=
          match bestBid, bestAsk with
          | some _, some _ =>
            decide (bestBidPrice = 0) ||
              decide (config.maxSpreadBps <
                (bestAskPrice - bestBidPrice) / bestBidPrice * 10000)
          | _, _ => false
        let spreadBpsVal : Option Rat :=
          match bestBid, bestAsk with
          | some _, some _ =>
            if bestBidPrice = 0 then none
            else some ((bestAskPrice - bestBidPrice) / bestBidPrice * 10000)
          | _, _ => none
        let checksSpread :=
          { checksTime with
            spread := { checksTime.spread with spreadBps := spreadBpsVal } }
        if spreadFails then
          { viable := false, reason := "spread_too_wide"
            checks :=
              { checksSpread with
                spread :=
                  { passed := false, spreadBps := spreadBpsVal
                    threshold := config.maxSpreadBps } } }
        else
          let bidDepth :=
            ob.bids.foldl (fun sum l => sum + l.size * l.price) 0
          let askDepth :=
            ob.asks.foldl (fun sum l => sum + l.size * l.price) 0
          let relevantDepth := min bidDepth askDepth
          let checksDepth :=
            { checksSpread with
              depth :=
                { checksSpread.depth with depthUsd := some relevantDepth } }
          if relevantDepth < config.minDepthUsd then
            { viable := false, reason := "insufficient_liquidity"
              checks :=
                { checksDepth with
                  depth :=
                    { passed := false, depthUsd := some relevantDepth
                      threshold := config.minDepthUsd } } }
          else
            { viable := true, reason := "All checks passed"
              checks := checksDepth }

/-- Predicate for the exit sides, `request.side === 'SELL' || 'MERGE'`. -/
def isExitSide (side : OrderSide) : Bool :=
  side = OrderSide.SELL ∨ side = OrderSide.MERGE

/-- Gate 1 of guardedExecutor.ts (`checkViabilityGate`): hard block for BUY,
warn-only for SELL/MERGE unless the spread or depth check failed. -/
def checkViabilityGate (env : Env) (now : Rat) (book : Option OrderBook)
    (request : OrderRequest) : GateCheckResult :=
  let isBuy := request.side = OrderSide.BUY
  if isBuy ∧ request.endDate = none then
    { passed := false, reason := some "missing_market_end_date" }
  else
    let viability :=
      checkMarketViability env now book request.endDate (isExitSide request.side)
    if viability.viable = false then
      if isBuy then { passed := false, reason := some viability.reason }
      else
        if viability.checks.spread.passed = false ∨
            viability.checks.depth.passed = false then
          { passed := false, reason := some viability.reason }
        else
          { passed := true, shouldWarnOnly := true
            reason := some viability.reason }
    else { passed := true }

/-! ### Edge filters (src/utils/edgeFilters.ts) -/

/-- Edge filter configuration (`EdgeFilterConfig` in the source). -/
structure EdgeFilterConfig where
  minPositionDeltaUsd : Rat
  requirePositionForSell : Bool
  minTradePercentOfPosition : Rat
deriving DecidableEq, Repr

/-- Function `getEdgeConfig` with the hard caps
`HARD_CAP_MIN_POSITION_DELTA_USD = 0.5`, `HARD_CAP_MIN_TRADE_PERCENT = 1.0`. -/
def getEdgeConfig (env : Env) : EdgeFilterConfig :=
  { minPositionDeltaUsd := max (env.EDGE_MIN_POSITION_DELTA_USD.getD 5) (1 / 2)
    requirePositionForSell := env.EDGE_REQUIRE_POSITION_FOR_SELL.getD true
    minTradePercentOfPosition :=
      max (env.EDGE_MIN_TRADE_PERCENT_OF_POSITION.getD 5) 1 }

/-- Minimal trade-shaped value passed to `checkEdgeFilters` by the guarded
executor (only `usdcSize`, `size` and `side` are read). -/
structure TradeForFilter where
  usdcSize : Rat
  size : Rat
  side : OrderSide
deriving DecidableEq, Repr

/-- Minimal position value (only `size` is read by the edge filters). -/
structure PositionLite where
  size : Rat
deriving DecidableEq, Repr

/-- Result of `checkEdgeFilters`; only the fields the executor reads are kept
(`shouldCopy` and `reason`), plus the per-filter passed flags. -/
structure EdgeFilterResult where
  shouldCopy : Bool
  reason : String
  positionDeltaPassed : Bool
  hasPositionForSellPassed : Bool
  tradePercentPassed : Bool
deriving DecidableEq, Repr

/-- Function `checkEdgeFilters`.  The numeric fragments of the source's reason
strings are elided.  `trade.usdcSize || 0` is the identity on rationals that
are already present, so it is dropped. -/
def checkEdgeFilters (config : EdgeFilterConfig) (trade : TradeForFilter)
    (myPosition traderPosition : Option PositionLite) : EdgeFilterResult :=
  if trade.usdcSize < config.minPositionDeltaUsd then
    { shouldCopy := false, reason := "Trade value below minimum"
      positionDeltaPassed := false, hasPositionForSellPassed := true
      tradePercentPassed := true }
  else
    let isSell := trade.side = OrderSide.SELL
    if isSell ∧ config.requirePositionForSell = true ∧
        (match myPosition with
         | none => true
         | some p => decide (p.size ≤ 0)) = true then
      { shouldCopy := false, reason := "Cannot copy sell trade - no position held"
        positionDeltaPassed := true, hasPositionForSellPassed := false
        tradePercentPassed := true }
    else
      match traderPosition with
      | some tpos =>
        if 0 < tpos.size then
          let positionBefore :=
            if isSell then tpos.size + trade.size else tpos.size - trade.size
          let tradePercent :=
            if 0 < positionBefore then trade.size / positionBefore * 100
            else 100
          if isSell ∧ tradePercent < config.minTradePercentOfPosition then
            { shouldCopy := false, reason := "Trade is small rebalance"
              positionDeltaPassed := true, hasPositionForSellPassed := true
              tradePercentPassed := false }
          else
            { shouldCopy := true, reason := "All edge filters passed"
              positionDeltaPassed := true, hasPositionForSellPassed := true
              tradePercentPassed := true }
        else
          { shouldCopy := true, reason := "All edge filters passed"
            positionDeltaPassed := true, hasPositionForSellPassed := true
            tradePercentPassed := true }
      | none =>
        { shouldCopy := true, reason := "All edge filters passed"
          positionDeltaPassed := true, hasPositionForSellPassed := true
          tradePercentPassed := true }

/-- Gate 2 of guardedExecutor.ts (`checkEdgeGate`).  The fallback USD size
uses JavaScript truthiness on `request.traderPrice`: a zero price yields
`undefined`. -/
def checkEdgeGate (env : Env) (request : OrderRequest)
    (myPosition traderPosition : Option PositionLite) : GateCheckResult :=
  let tradeUsdSize : Option Rat :=
    match request.tradeUsdcSize with
    | some v => some v
    | none =>
      if request.side = OrderSide.BUY then some request.amount
      else
        match request.traderPrice with
        | some tp => if tp = 0 then none else some (request.amount * tp)
        | none => none
  match tradeUsdSize with
  | none => { passed := false, reason := some "edge_filter_missing_trade_usdc" }
  | some usd =>
    let tradeForFilter : TradeForFilter :=
      { usdcSize := usd, size := request.amount, side := request.side }
    let result :=
      checkEdgeFilters (getEdgeConfig env) tradeForFilter myPosition
        traderPosition
    if result.shouldCopy = false then
      { passed := false, reason := some ("edge_filter: " ++ result.reason) }
    else { passed := true }

/-! ### Idempotency and persisted trade records -/

/-- Status of a context-level idempotency record. -/
inductive IdemStatus where
  | pending
  | completed
  | failed
deriving DecidableEq, Repr

/-- Context-level idempotency record (`IdempotencyRecord` in the source). -/
structure IdempotencyRecord where
  tradeId : String
  orderId : Option String := none
  idempotencyKey : String
  status : IdemStatus
deriving DecidableEq, Repr

/-- Snapshot of a persisted trade record (the fields of the Mongo document
read or written by the embedded modules). -/
structure TradeRecord where
  id : String
  idempotencyKey : Option String := none
  clobOrderId : Option String := none
  lifecycleState : LifecycleState
  claimedBy : Option String := none
  leaseExpiresAt : Option Rat := none
  claimedAt : Option Rat := none
deriving DecidableEq, Repr

/-- Result of `checkIdempotency`. -/
structure IdemCheckResult where
  skip : Bool
  existingOrderId : Option String := none
  existingKey : Option String := none
deriving DecidableEq, Repr

/-- Function `checkIdempotency`.  `getIdemRecord = none` models an absent
`ctx.getIdempotencyRecord` callback; `some none` models the callback
returning null.  `dbTrade` is the result of the direct database lookup for
`(userAddress, tradeId)`; it is consulted only when both are present.  A
database error (not modelled) would fall through to no-skip, like the
not-found case. -/
def checkIdempotency (getIdemRecord : Option (Option IdempotencyRecord))
    (dbTrade : Option TradeRecord) (request : OrderRequest) : IdemCheckResult :=
  let ctxHit : Option IdempotencyRecord :=
    match request.tradeId, getIdemRecord with
    | some _, some (some r) =>
      if r.status = IdemStatus.completed then some r else none
    | _, _ => none
  match ctxHit with
  | some r => { skip := true, existingOrderId := r.orderId
                existingKey := some r.idempotencyKey }
  | none =>
    match request.tradeId, request.userAddress, dbTrade with
    | some _, some _, some trade =>
      if trade.idempotencyKey.isSome ∧
          trade.lifecycleState = LifecycleState.executed then
        { skip := true, existingOrderId := trade.clobOrderId
          existingKey := trade.idempotencyKey }
      else if trade.idempotencyKey.isSome then
        { skip := true, existingOrderId := trade.clobOrderId
          existingKey := trade.idempotencyKey }
      else if trade.clobOrderId.isSome then
        { skip := true, existingOrderId := trade.clobOrderId
          existingKey := trade.idempotencyKey }
      else { skip := false }
    | _, _, _ => { skip := false }

/-- Result of `reserveIdempotencyKey`. -/
structure ReserveResult where
  reserved : Bool
  existingKey : Option String := none
  existingOrderId : Option String := none
deriving DecidableEq, Repr

/-- Function `reserveIdempotencyKey`: the atomic `findOneAndUpdate` succeeds
exactly when the persisted record exists and still has a null key; the model
reads the same snapshot for the post-failure refetch. -/
def reserveIdempotencyKey (dbTrade : Option TradeRecord)
    (request : OrderRequest) : ReserveResult :=
  match request.tradeId, request.userAddress with
  | some _, some _ =>
    (match dbTrade with
     | some trade =>
       if trade.idempotencyKey = none then { reserved := true }
       else
         { reserved := false, existingKey := trade.idempotencyKey
           existingOrderId := trade.clobOrderId }
     | none => { reserved := false })
  | _, _ => { reserved := true }

/-- String form of an order side, as interpolated by the source. -/
def sideToString : OrderSide → String
  | OrderSide.BUY => "BUY"
  | OrderSide.SELL => "SELL"
  | OrderSide.MERGE => "MERGE"

/-- Function `generateIdempotencyKey` (`Date.now()` is the `now` argument). -/
def generateIdempotencyKey (tradeId : Option String) (side : OrderSide)
    (tokenId : String) (now : Rat) : String :=
  (tradeId.getD "manual") ++ "-" ++ sideToString side ++ "-" ++ tokenId ++
    "-" ++ toString now

/-! ### Execution loop (executeOrderLoop) -/

/-- Response of `postOrder` for one submitted sub-order.  The carried string
of `failure` is the message extracted by `extractOrderError`; `success`
carries the `orderID`/`orderId` field, if any. -/
inductive PostResponse where
  | success (orderId : Option String)
  | failure (errorMsg : Option String)
deriving DecidableEq, Repr

/-- Environment of one loop iteration: the freshly fetched order book and the
exchange response used if a sub-order is posted in that iteration. -/
structure LoopStep where
  book : OrderBook
  resp : PostResponse
deriving DecidableEq, Repr

/-- A sub-order handed to `createMarketOrder`/`postOrder`. -/
structure SubOrder where
  side : OrderSide
  tokenID : String
  amount : Rat
  price : Rat
deriving DecidableEq, Repr

/-- Mutable state of `executeOrderLoop`. -/
structure LoopState where
  remaining : Rat
  retry : Nat
  abortDueToFunds : Bool
  totalFilledTokens : Rat
  totalFilledUsd : Rat
  lastOrderId : Option String
deriving DecidableEq, Repr

/-- Substring test used to model `String.prototype.includes`. -/
def containsSub (s sub : String) : Bool := 2 ≤ (s.splitOn sub).length

/-- Function `isInsufficientBalanceOrAllowanceError`. -/
def isInsufficientBalanceOrAllowanceError (message : Option String) : Bool :=
  match message with
  | none => false
  | some m =>
    containsSub m.toLower "not enough balance" || containsSub m.toLower "allowance"

/-- Result classification at the bottom of `executeOrderLoop`
(the three return blocks after the while loop). -/
def finishLoop (env : Env) (key : String) (s : LoopState) : OrderResult :=
  if s.abortDueToFunds then
    { success := false, executed := decide (0 < s.totalFilledTokens)
      skipped := false, failed := true
      reason := some "insufficient_funds_or_allowance", isRetryable := some false
      filledTokens := some s.totalFilledTokens
      filledSize := some s.totalFilledUsd
      avgFillPrice :=
        if 0 < s.totalFilledTokens then
          some (s.totalFilledUsd / s.totalFilledTokens)
        else none
      orderId := s.lastOrderId, idempotencyKey := some key }
  else if env.RETRY_LIMIT ≤ s.retry then
    { success := false, executed := decide (0 < s.totalFilledTokens)
      skipped := false, failed := true
      reason := some "max_retries_exceeded", isRetryable := some true
      filledTokens := some s.totalFilledTokens
      filledSize := some s.totalFilledUsd
      avgFillPrice :=
        if 0 < s.totalFilledTokens then
          some (s.totalFilledUsd / s.totalFilledTokens)
        else none
      orderId := s.lastOrderId, idempotencyKey := some key }
  else
    { success := true, executed := true, skipped := false, failed := false
      filledTokens := some s.totalFilledTokens
      filledSize := some s.totalFilledUsd
      avgFillPrice :=
        if 0 < s.totalFilledTokens then
          some (s.totalFilledUsd / s.totalFilledTokens)
        else none
      orderId := s.lastOrderId, idempotencyKey := some key }

/-- Mid-loop return taken when the slippage gate blocks (both the BUY and the
SELL/MERGE copy of that block in the source).  Note that `executed` is
`totalFilledTokens > 0` while `skipped` is unconditionally true. -/
def slippageStopResult (key : String) (s : LoopState) : OrderResult :=
  { success := false, executed := decide (0 < s.totalFilledTokens)
    skipped := true, failed := false
    reason := some "slippage_exceeds_max_bps"
    filledTokens := some s.totalFilledTokens
    filledSize := some s.totalFilledUsd
    idempotencyKey := some key }

/-- Body of `executeOrderLoop`, one constructor of `steps` per iteration of
the while loop.  The list also bounds the number of iterations: if it runs
out while the loop condition still holds, the model exits with the same
classification as a natural exit (this extra behaviour submits no further
orders).  The pair returned is the `OrderResult` together with the list of
sub-orders handed to `createMarketOrder`/`postOrder`, in submission order.

Divergence note: for a zero best-ask price, `orderSize / currentPrice` is `0`
here while JavaScript yields `Infinity`; no claim touches that degenerate
book. -/
def executeLoopGo (env : Env) (request : OrderRequest) (key : String) :
    List LoopStep → LoopState → OrderResult × List SubOrder
  | [], s => (finishLoop env key s, [])
  | step :: rest, s =>
    if ¬(0 < s.remaining ∧ s.retry < env.RETRY_LIMIT) then
      (finishLoop env key s, [])
    else if request.side = OrderSide.BUY then
      match step.book.asks with
      | [] => (finishLoop env key s, [])
      | a0 :: more =>
        let bestAsk :=
          (a0 :: more).foldl (fun m x => if x.price < m.price then x else m) a0
        let currentPrice := bestAsk.price
        if (checkSlippageGate env OrderSide.BUY currentPrice
            request.traderPrice).passed = false then
          (slippageStopResult key s, [])
        else if s.remaining < MIN_ORDER_SIZE_USD then (finishLoop env key s, [])
        else
          let orderSize := min s.remaining (bestAsk.size * currentPrice)
          let order : SubOrder :=
            { side := OrderSide.BUY, tokenID := request.tokenId
              amount := orderSize, price := currentPrice }
          match step.resp with
          | PostResponse.success oid =>
            let out := executeLoopGo env request key rest
              { s with retry := 0
                       totalFilledTokens :=
                         s.totalFilledTokens + orderSize / currentPrice
                       totalFilledUsd := s.totalFilledUsd + orderSize
                       remaining := s.remaining - orderSize
                       lastOrderId := oid }
            (out.1, order :: out.2)
          | PostResponse.failure msg =>
            if isInsufficientBalanceOrAllowanceError msg then
              (finishLoop env key { s with abortDueToFunds := true }, [order])
            else
              let out :=
                executeLoopGo env request key rest { s with retry := s.retry + 1 }
              (out.1, order :: out.2)
    else
      match step.book.bids with
      | [] => (finishLoop env key s, [])
      | b0 :: more =>
        let bestBid :=
          (b0 :: more).foldl (fun m x => if m.price < x.price then x else m) b0
        let currentPrice := bestBid.price
        if s.remaining < MIN_ORDER_SIZE_TOKENS then (finishLoop env key s, [])
        else
          let sellAmount := min s.remaining bestBid.size
          if sellAmount < MIN_ORDER_SIZE_TOKENS then (finishLoop env key s, [])
          else if (checkSlippageGate env OrderSide.SELL currentPrice
              request.traderPrice).passed = false then
            (slippageStopResult key s, [])
          else
            let order : SubOrder :=
              { side := OrderSide.SELL, tokenID := request.tokenId
                amount := sellAmount, price := currentPrice }
            match step.resp with
            | PostResponse.success oid =>
              let out := executeLoopGo env request key rest
                { s with retry := 0
                         totalFilledTokens := s.totalFilledTokens + sellAmount
                         totalFilledUsd :=
                           s.totalFilledUsd + sellAmount * currentPrice
                         remaining := s.remaining - sellAmount
                         lastOrderId := oid }
              (out.1, order :: out.2)
            | PostResponse.failure msg =>
              if isInsufficientBalanceOrAllowanceError msg then
                (finishLoop env key { s with abortDueToFunds := true }, [order])
              else
                let out := executeLoopGo env request key rest
                  { s with retry := s.retry + 1 }
                (out.1, order :: out.2)

/-- Initial loop state (`remaining = request.amount`, all accumulators 0). -/
def initialLoopState (request : OrderRequest) : LoopState :=
  { remaining := request.amount, retry := 0, abortDueToFunds := false
    totalFilledTokens := 0, totalFilledUsd := 0, lastOrderId := none }

/-- Function `executeOrderLoop`. -/
def executeOrderLoop (env : Env) (request : OrderRequest) (key : String)
    (steps : List LoopStep) : OrderResult × List SubOrder :=
  executeLoopGo env request key steps (initialLoopState request)

/-! ### The guarded executor (executeOrderGuarded) -/

/-- Environment of one `executeOrderGuarded` call: the configuration, the
clock, the results of the optional context callbacks and database reads, the
order book seen by the viability check, and the per-iteration environment of
the execution loop. -/
structure GuardWorld where
  env : Env
  now : Rat
  getIdemRecord : Option (Option IdempotencyRecord)
  dbTrade : Option TradeRecord
  hasAcquireLease : Bool
  leaseGranted : Bool
  viabilityBook : Option OrderBook
  loopSteps : List LoopStep
deriving Repr

/-- Result of the guarded executor together with the sub-orders it submitted
(the submissions happen only inside the execution loop). -/
structure GuardOutcome where
  result : OrderResult
  orders : List SubOrder
deriving DecidableEq, Repr

/-- Skip result produced by the gate-failure branches of
`executeOrderGuarded`. -/
def gateSkipResult (reason : Option String) : OrderResult :=
  { success := false, executed := false, skipped := true, failed := false
    reason := reason }

/-- The position object handed to the edge gate,
`request.myPositionSize ? { size: request.myPositionSize } : undefined`
(a zero size is falsy and yields `undefined`). -/
def guardMyPosition (request : OrderRequest) : Option PositionLite :=
  match request.myPositionSize with
  | some p => if p = 0 then none else some { size := p }
  | none => none

/-- Function `executeOrderGuarded`: the gate pipeline followed by idempotency
reservation and the execution loop.  `acquireLeaseIfNeeded` is inlined: the
lease step fails only when a `tradeId` is present, the context provides
`acquireLease`, and that callback returns false.  The `catch` around the loop
is not modelled (the pure loop cannot throw); lease release and
`setIdempotencyRecord` are writebacks with no effect on the returned value. -/
def executeOrderGuarded (w : GuardWorld) (request : OrderRequest) :
    GuardOutcome :=
  let timestampResult := checkTimestampGate w.env w.now request
  if timestampResult.passed = false then
    { result := gateSkipResult timestampResult.reason, orders := [] }
  else
    let idempotencyCheck := checkIdempotency w.getIdemRecord w.dbTrade request
    if idempotencyCheck.skip then
      { result :=
          { success := true, executed := false, skipped := true, failed := false
            reason := some "idempotency_already_executed"
            orderId := idempotencyCheck.existingOrderId
            idempotencyKey := idempotencyCheck.existingKey }
        orders := [] }
    else if request.tradeId.isSome ∧ w.hasAcquireLease ∧ w.leaseGranted = false
    then
      { result :=
          { success := false, executed := false, skipped := false, failed := true
            reason := some "lease_acquisition_failed", isRetryable := some true }
        orders := [] }
    else
      let viabilityResult := checkViabilityGate w.env w.now w.viabilityBook request
      if viabilityResult.passed = false then
        { result := gateSkipResult viabilityResult.reason, orders := [] }
      else
        let edgeResult := checkEdgeGate w.env request (guardMyPosition request) none
        if edgeResult.passed = false then
          { result := gateSkipResult edgeResult.reason, orders := [] }
        else
          let positionResult := checkPositionRequiredForSell request
          if positionResult.passed = false then
            { result := gateSkipResult positionResult.reason, orders := [] }
          else
            let sizingResult := checkOrderSizing request
            if sizingResult.passed = false then
              { result := gateSkipResult sizingResult.reason, orders := [] }
            else
              let key :=
                generateIdempotencyKey request.tradeId request.side
                  request.tokenId w.now
              let reserveResult := reserveIdempotencyKey w.dbTrade request
              if reserveResult.reserved = false then
                { result :=
                    { success := true, executed := false, skipped := true
                      failed := false, reason := some "idempotency_in_progress"
                      orderId := reserveResult.existingOrderId
                      idempotencyKey := reserveResult.existingKey }
                  orders := [] }
              else
                let out := executeLoopGo w.env request key w.loopSteps
                  (initialLoopState request)
                { result := out.1, orders := out.2 }

/-! ### Convenience wrapper executeSellGuarded -/

/-- Options object of `executeSellGuarded`.  An `Option` field set to `none`
models the key being absent from the object (the JavaScript spread then does
not overwrite the default). -/
structure SellOptions where
  endDate : Option Rat := none
  marketSlug : Option String := none
  tradeId : Option String := none
  myPositionSize : Option Rat := none
deriving DecidableEq, Repr

/-- The `OrderRequest` built by `executeSellGuarded`: the literal writes
`myPositionSize: options.myPositionSize ?? amountTokens` and then spreads
`...options` over it, so a present key wins and an absent key leaves the
default `amountTokens`. -/
def executeSellGuardedRequest (tokenId : String) (amountTokens : Rat)
    (options : SellOptions) : OrderRequest :=
  { side := OrderSide.SELL, tokenId := tokenId, amount := amountTokens
    myPositionSize := some (options.myPositionSize.getD amountTokens)
    endDate := options.endDate, marketSlug := options.marketSlug
    tradeId := options.tradeId, traderPrice := none, tradeUsdcSize := none
    tradeTimestamp := none, userAddress := none, myPositionValue := none }

/-- Function `executeSellGuarded` as a call of the guarded executor on the
request above (the wrapper builds a bare context with only the exchange
client, so no idempotency callback and no lease callback are present). -/
def executeSellGuarded (w : GuardWorld) (tokenId : String) (amountTokens : Rat)
    (options : SellOptions) : GuardOutcome :=
  executeOrderGuarded w (executeSellGuardedRequest tokenId amountTokens options)

/-! ### Lease manager (second half of src/utils/edgeFilters.ts) -/

/-- True when the lease expiry field exists and is strictly in the past; the
Mongo filter `leaseExpiresAt: { $lt: now }` does not match a missing or null
field. -/
def leaseExpired (r : TradeRecord) (now : Rat) : Bool :=
  match r.leaseExpiresAt with
  | some e => decide (e < now)
  | none => false

/-- Match condition of the atomic update inside `acquireLease`: not claimed
(absent or null `claimedBy`), or the previous lease has expired. -/
def leaseCasMatches (r : TradeRecord) (now : Rat) : Bool :=
  r.claimedBy.isNone || leaseExpired r now

/-- Function `acquireLease` on a present record: the atomic compare-and-set,
then the same-worker fallback read.  Returns the success flag and the record
after the call. -/
def acquireLease (r : TradeRecord) (now leaseTimeoutMs : Rat)
    (workerId : String) : Bool × TradeRecord :=
  if leaseCasMatches r now then
    (true,
      { r with claimedBy := some workerId
               leaseExpiresAt := some (now + leaseTimeoutMs)
               claimedAt := some now
               lifecycleState := LifecycleState.claimed })
  else if r.claimedBy = some workerId then (true, r)
  else (false, r)

/-- Match condition of `clearExpiredLeases`: claimed-by non-null (the Mongo
`$ne: null` filter excludes missing fields too), expired lease, and lifecycle
state `claimed`. -/
def clearExpiredMatches (now : Rat) (r : TradeRecord) : Bool :=
  r.claimedBy.isSome && leaseExpired r now &&
    decide (r.lifecycleState = LifecycleState.claimed)

/-- Per-record effect of the `updateMany` inside `clearExpiredLeases`. -/
def clearExpiredOne (now : Rat) (r : TradeRecord) : TradeRecord :=
  if clearExpiredMatches now r then
    { r with claimedBy := none, leaseExpiresAt := none
             lifecycleState := LifecycleState.detected }
  else r

/-- Function `clearExpiredLeases` over the records of one user collection. -/
def clearExpiredLeases (now : Rat) (records : List TradeRecord) :
    List TradeRecord :=
  records.map (clearExpiredOne now)

/-- Function `findStuckTrades`: ids of records in `executing` with an expired
lease. -/
def findStuckTrades (now : Rat) (records : List TradeRecord) : List String :=
  (records.filter (fun r =>
    decide (r.lifecycleState = LifecycleState.executing) && leaseExpired r now)).map
    (fun r => r.id)

/-! ### Reconciliation (src/services/reconciliation.ts) -/

/-- Discrepancy severity. -/
inductive Severity where
  | info
  | warning
  | critical
deriving DecidableEq, Repr

/-- Expected-position entry built by `calculateExpectedPositions`. -/
structure ExpectedPos where
  size : Rat
  slug : Option String := none
  conditionId : String := ""
deriving DecidableEq, Repr

/-- Actual-position entry built by `getActualPositions`. -/
structure ActualPos where
  size : Rat
  slug : Option String := none
  conditionId : String := ""
deriving DecidableEq, Repr

/-- One reported discrepancy (`PositionDiscrepancy` in the source). -/
structure PositionDiscrepancy where
  asset : String
  conditionId : String
  slug : Option String
  expectedSize : Rat
  actualSize : Rat
  difference : Rat
  differencePercent : Rat
  severity : Severity
deriving DecidableEq, Repr

/-- Map lookup on the actual-positions association list. -/
def lookupActual (actual : List (String × ActualPos)) (asset : String) :
    Option ActualPos :=
  (actual.find? (fun p => p.1 = asset)).map (fun p => p.2)

/-- The `actual?.size || 0` read (a zero size maps to zero either way). -/
def actualSizeOf (actual : List (String × ActualPos)) (asset : String) : Rat :=
  ((lookupActual actual asset).map (fun p => p.size)).getD 0

/-- Per-expected-entry body of the first reconciliation loop: `none` when the
difference is within tolerance (the entry counts as matching), otherwise the
emitted discrepancy. -/
def discOfExpected (actual : List (String × ActualPos))
    (p : String × ExpectedPos) : Option PositionDiscrepancy :=
  let act := lookupActual actual p.1
  let actualSize := actualSizeOf actual p.1
  let difference := actualSize - p.2.size
  let differencePercent :=
    if 0 < p.2.size then difference / p.2.size * 100 else 0
  let toleranceTokens := max (p.2.size * (1 / 100)) (1 / 10)
  if |difference| ≤ toleranceTokens then none
  else
    some
      { asset := p.1, conditionId := p.2.conditionId
        slug :=
          match p.2.slug with
          | some s => some s
          | none => act.bind (fun a => a.slug)
        expectedSize := p.2.size, actualSize := actualSize
        difference := difference, differencePercent := differencePercent
        severity :=
          if 20 < |differencePercent| then Severity.critical
          else if 5 < |differencePercent| then Severity.warning
          else Severity.info }

/-- Per-actual-entry body of the second reconciliation loop: a warning for
every actual position without an expected counterpart. -/
def discOfUnknown (expected : List (String × ExpectedPos))
    (p : String × ActualPos) : Option PositionDiscrepancy :=
  if (expected.find? (fun q => q.1 = p.1)).isSome then none
  else
    some
      { asset := p.1, conditionId := p.2.conditionId, slug := p.2.slug
        expectedSize := 0, actualSize := p.2.size, difference := p.2.size
        differencePercent := 100, severity := Severity.warning }

/-- Summary and discrepancy list of one reconciliation run. -/
structure ReconciliationOutcome where
  discrepancies : List PositionDiscrepancy
  matchingPositions : Nat
deriving DecidableEq, Repr

/-- Core of `runReconciliation`: the two loops over expected and actual
positions (the maps are modelled as association lists in iteration order). -/
def runReconciliation (expected : List (String × ExpectedPos))
    (actual : List (String × ActualPos)) : ReconciliationOutcome :=
  { discrepancies :=
      expected.filterMap (discOfExpected actual) ++
        actual.filterMap (discOfUnknown expected)
    matchingPositions :=
      expected.countP (fun p => (discOfExpected actual p).isNone) }

/-! ### Flag discipline of order results -/

/-- Flag discipline that the execution results actually satisfy: `skipped`
and `failed` never coexist, and `executed` coexists with a terminal `skipped`
or `failed` flag exactly when a partial fill was accumulated first. -/
def FlagsOk (r : OrderResult) : Prop :=
  ¬(r.skipped = true ∧ r.failed = true)
  ∧ (r.executed = true → r.skipped = true → 0 < r.filledTokens.getD 0)
  ∧ (r.executed = true → r.failed = true → 0 < r.filledTokens.getD 0)

/-! ### Concrete instances used by counterexamples and witnesses -/

/-- Default-like configuration: `RETRY_LIMIT = 3`, `MAX_SLIPPAGE_BPS = 500`,
`TOO_OLD_TIMESTAMP_HOURS = 24`, every optional variable unset. -/
def defaultEnv : Env :=
  { RETRY_LIMIT := 3, MAX_SLIPPAGE_BPS := 500, TOO_OLD_TIMESTAMP_HOURS := 24
    VIABILITY_PRICE_LIMIT := none, VIABILITY_MIN_TIME_BEFORE_END_MINUTES := none
    VIABILITY_MAX_SPREAD_BPS := none, VIABILITY_MIN_DEPTH_USD := none
    EDGE_MIN_POSITION_DELTA_USD := none, EDGE_REQUIRE_POSITION_FOR_SELL := none
    EDGE_MIN_TRADE_PERCENT_OF_POSITION := none }

/-- A healthy order book that passes every viability check under
`defaultEnv`. -/
def goodBook : OrderBook :=
  { bids := [{ price := 1 / 2, size := 100 }]
    asks := [{ price := 51 / 100, size := 100 }] }

/-- BUY request for 10 USD at trader price 0.50, no trade tracking. -/
def reqC1 : OrderRequest :=
  { side := OrderSide.BUY, tokenId := "T", amount := 10
    traderPrice := some (1 / 2), endDate := some 86400000, marketSlug := none
    myPositionSize := none, myPositionValue := none, tradeId := none
    tradeUsdcSize := none, tradeTimestamp := none, userAddress := none }

/-- World in which `reqC1` first fills a 5 USD sub-order at 0.50 and then
meets a 1.00 ask, which trips the slippage gate after the partial fill. -/
def worldC1 : GuardWorld :=
  { env := defaultEnv, now := 0, getIdemRecord := none, dbTrade := none
    hasAcquireLease := false, leaseGranted := false
    viabilityBook := some goodBook
    loopSteps :=
      [ { book := { bids := [], asks := [{ price := 1 / 2, size := 10 }] }
          resp := PostResponse.success (some "O1") }
      , { book := { bids := [], asks := [{ price := 1, size := 1 }] }
          resp := PostResponse.failure none } ] }

/-- Persisted record in lifecycle state `executed` whose `idempotencyKey` and
`clobOrderId` are both null. -/
def tradeExecOnly : TradeRecord :=
  { id := "t1", idempotencyKey := none, clobOrderId := none
    lifecycleState := LifecycleState.executed }

/-- Copy-trade BUY request tied to record `t1` of user `0xu`, with a fresh
trade timestamp. -/
def reqC2 : OrderRequest :=
  { side := OrderSide.BUY, tokenId := "T", amount := 10
    traderPrice := some (1 / 2), endDate := some 86400000, marketSlug := none
    myPositionSize := none, myPositionValue := none, tradeId := some "t1"
    tradeUsdcSize := none, tradeTimestamp := some 0, userAddress := some "0xu" }

/-- World in which the persisted record for `reqC2` is `tradeExecOnly` and
one sub-order can fill. -/
def worldC2 : GuardWorld :=
  { env := defaultEnv, now := 0, getIdemRecord := none
    dbTrade := some tradeExecOnly, hasAcquireLease := false
    leaseGranted := false, viabilityBook := some goodBook
    loopSteps :=
      [ { book := { bids := [], asks := [{ price := 1 / 2, size := 10 }] }
          resp := PostResponse.success (some "O2") } ] }

/-- Persisted record that already carries an idempotency key and an exchange
order id. -/
def tradeWithKey : TradeRecord :=
  { id := "t1", idempotencyKey := some "K1", clobOrderId := some "O9"
    lifecycleState := LifecycleState.executed }

/-- Same world as `worldC2` but with `tradeWithKey` persisted. -/
def worldC2w : GuardWorld :=
  { env := defaultEnv, now := 0, getIdemRecord := none
    dbTrade := some tradeWithKey, hasAcquireLease := false
    leaseGranted := false, viabilityBook := some goodBook
    loopSteps :=
      [ { book := { bids := [], asks := [{ price := 1 / 2, size := 10 }] }
          resp := PostResponse.success (some "O2") } ] }

/-- BUY request at trader price 0.50 used to instantiate the slippage-bound
theorem. -/
def reqC3 : OrderRequest :=
  { side := OrderSide.BUY, tokenId := "T", amount := 10
    traderPrice := some (1 / 2), endDate := none, marketSlug := none
    myPositionSize := none, myPositionValue := none, tradeId := none
    tradeUsdcSize := none, tradeTimestamp := none, userAddress := none }

/-- SELL request used to instantiate the viability-gate theorem. -/
def reqC4sell : OrderRequest :=
  { side := OrderSide.SELL, tokenId := "T", amount := 10
    traderPrice := none, endDate := some 86400000, marketSlug := none
    myPositionSize := some 10, myPositionValue := none, tradeId := none
    tradeUsdcSize := none, tradeTimestamp := none, userAddress := none }

/-- Unclaimed persisted record. -/
def recC5 : TradeRecord :=
  { id := "r5", idempotencyKey := none, clobOrderId := none
    lifecycleState := LifecycleState.detected }

/-- Record in state `executing` with a lease that expired at time 1. -/
def recC6 : TradeRecord :=
  { id := "r6", idempotencyKey := none, clobOrderId := none
    lifecycleState := LifecycleState.executing, claimedBy := some "w0"
    leaseExpiresAt := some 1 }

/-- Trade request whose timestamp (epoch seconds 0) is exactly at the
24-hour freshness boundary when `now = 86400000` ms. -/
def reqC7boundary : OrderRequest :=
  { side := OrderSide.BUY, tokenId := "T", amount := 10, traderPrice := none
    endDate := none, marketSlug := none, myPositionSize := none
    myPositionValue := none, tradeId := some "t7", tradeUsdcSize := none
    tradeTimestamp := some 0, userAddress := none }

/-- Trade request that carries a `tradeId` but no `tradeTimestamp`. -/
def reqC7missing : OrderRequest :=
  { side := OrderSide.BUY, tokenId := "T", amount := 10, traderPrice := none
    endDate := none, marketSlug := none, myPositionSize := none
    myPositionValue := none, tradeId := some "t7", tradeUsdcSize := none
    tradeTimestamp := none, userAddress := none }

/-- World used with `reqC7missing` (the gate fails before anything else is
consulted). -/
def worldC7 : GuardWorld :=
  { env := defaultEnv, now := 0, getIdemRecord := none, dbTrade := none
    hasAcquireLease := false, leaseGranted := false, viabilityBook := none
    loopSteps := [] }

/-- Expected positions: 10 tokens of asset A. -/
def expectedC8 : List (String × ExpectedPos) :=
  [("A", { size := 10 })]

/-- Actual positions: 20 tokens of A and 5 tokens of the unknown asset B. -/
def actualC8 : List (String × ActualPos) :=
  [("A", { size := 20 }), ("B", { size := 5 })]

/-- BUY request with no trader price: the slippage gate is vacuous. -/
def reqNoTraderPrice : OrderRequest :=
  { side := OrderSide.BUY, tokenId := "T", amount := 10, traderPrice := none
    endDate := none, marketSlug := none, myPositionSize := none
    myPositionValue := none, tradeId := none, tradeUsdcSize := none
    tradeTimestamp := none, userAddress := none }

end Cawpy

namespace Cawpy

/-!
## Theorems

Concrete evaluations below go through `decide`; the four arithmetic
primitives of `Rat` are marked irreducible upstream purely as a normal-form
guard, so they are made semireducible locally to let the elaborator reduce
them.
-/

attribute [local semireducible] Rat.mul Rat.add Rat.sub Rat.inv

theorem finishLoop_flagsOk (env : Env) (key : String) (s : LoopState) :
    FlagsOk (finishLoop env key s) := by
  unfold FlagsOk finishLoop
  split
  · refine ⟨by simp, by simp, ?_⟩
    intro hx _
    simpa using of_decide_eq_true hx
  · split
    · refine ⟨by simp, by simp, ?_⟩
      intro hx _
      simpa using of_decide_eq_true hx
    · simp

theorem slippageStopResult_flagsOk (key : String) (s : LoopState) :
    FlagsOk (slippageStopResult key s) := by
  unfold FlagsOk slippageStopResult
  refine ⟨by simp, ?_, by simp⟩
  intro hx _
  simpa using of_decide_eq_true hx

theorem executeLoopGo_flagsOk (env : Env) (request : OrderRequest) (key : String)
    (steps : List LoopStep) : ∀ s : LoopState,
    FlagsOk (executeLoopGo env request key steps s).1 := by
  induction steps with
  | nil => intro s; exact finishLoop_flagsOk env key s
  | cons step rest ih =>
    intro s
    simp only [executeLoopGo]
    split
    · exact finishLoop_flagsOk env key s
    · split
      · split
        · exact finishLoop_flagsOk env key s
        · split
          · exact slippageStopResult_flagsOk key s
          · split
            · exact finishLoop_flagsOk env key s
            · split
              · exact ih _
              · split
                · exact finishLoop_flagsOk env key _
                · exact ih _
      · split
        · exact finishLoop_flagsOk env key s
        · split
          · exact finishLoop_flagsOk env key s
          · split
            · exact finishLoop_flagsOk env key s
            · split
              · exact slippageStopResult_flagsOk key s
              · split
                · exact ih _
                · split
                  · exact finishLoop_flagsOk env key _
                  · exact ih _

theorem executeOrderGuarded_flagsOk (w : GuardWorld) (request : OrderRequest) :
    FlagsOk (executeOrderGuarded w request).result := by
  unfold executeOrderGuarded
  by_cases h0 : (checkTimestampGate w.env w.now request).passed = false
  · rw [if_pos h0]; simp [FlagsOk, gateSkipResult]
  rw [if_neg h0]
  by_cases h1 : (checkIdempotency w.getIdemRecord w.dbTrade request).skip = true
  · rw [if_pos h1]; simp [FlagsOk]
  rw [if_neg h1]
  by_cases h2 : request.tradeId.isSome = true ∧ w.hasAcquireLease = true ∧
      w.leaseGranted = false
  · rw [if_pos h2]; simp [FlagsOk]
  rw [if_neg h2]
  by_cases h3 : (checkViabilityGate w.env w.now w.viabilityBook request).passed = false
  · rw [if_pos h3]; simp [FlagsOk, gateSkipResult]
  rw [if_neg h3]
  by_cases h4 : (checkEdgeGate w.env request (guardMyPosition request) none).passed = false
  · rw [if_pos h4]; simp [FlagsOk, gateSkipResult]
  rw [if_neg h4]
  by_cases h5 : (checkPositionRequiredForSell request).passed = false
  · rw [if_pos h5]; simp [FlagsOk, gateSkipResult]
  rw [if_neg h5]
  by_cases h6 : (checkOrderSizing request).passed = false
  · rw [if_pos h6]; simp [FlagsOk, gateSkipResult]
  rw [if_neg h6]
  by_cases h7 : (reserveIdempotencyKey w.dbTrade request).reserved = false
  · rw [if_pos h7]; simp [FlagsOk]
  rw [if_neg h7]
  exact executeLoopGo_flagsOk w.env request _ w.loopSteps _

theorem checkSlippageGate_buy_bound (env : Env) (c tp : Rat) (htp : 0 < tp)
    (h : (checkSlippageGate env OrderSide.BUY c (some tp)).passed = true) :
    c ≤ tp * (1 + effectiveMaxSlippageBps env / 10000) := by
  simp only [checkSlippageGate] at h
  rw [if_neg (not_le.mpr htp)] at h
  by_cases hgt : effectiveMaxSlippageBps env < (c - tp) / tp * 10000
  · rw [if_pos] at h
    · simp at h
    · simpa using hgt
  · push_neg at hgt
    rw [div_mul_eq_mul_div, div_le_iff₀ htp] at hgt
    have expand : tp * (1 + effectiveMaxSlippageBps env / 10000)
        = tp + effectiveMaxSlippageBps env * tp / 10000 := by ring
    rw [expand]
    linarith

theorem checkSlippageGate_sell_bound (env : Env) (c tp : Rat) (htp : 0 < tp)
    (h : (checkSlippageGate env OrderSide.SELL c (some tp)).passed = true) :
    tp * (1 - effectiveMaxSlippageBps env / 10000) ≤ c := by
  simp only [checkSlippageGate] at h
  rw [if_neg (not_le.mpr htp)] at h
  by_cases hgt : effectiveMaxSlippageBps env < (tp - c) / tp * 10000
  · rw [if_pos] at h
    · simp at h
    · simpa using hgt
  · push_neg at hgt
    rw [div_mul_eq_mul_div, div_le_iff₀ htp] at hgt
    have expand : tp * (1 - effectiveMaxSlippageBps env / 10000)
        = tp - effectiveMaxSlippageBps env * tp / 10000 := by ring
    rw [expand]
    linarith

theorem checkSlippageGate_buy_cap_allowed (env : Env) (tp : Rat) (htp : 0 < tp) :
    (checkSlippageGate env OrderSide.BUY
      (tp * (1 + effectiveMaxSlippageBps env / 10000)) (some tp)).passed = true := by
  simp only [checkSlippageGate]
  rw [if_neg (not_le.mpr htp)]
  have hslip : (tp * (1 + effectiveMaxSlippageBps env / 10000) - tp) / tp * 10000
      = effectiveMaxSlippageBps env := by
    field_simp
    ring
  simp only [hslip, lt_self_iff_false, if_false]
  simp

theorem checkSlippageGate_sell_cap_allowed (env : Env) (tp : Rat) (htp : 0 < tp) :
    (checkSlippageGate env OrderSide.SELL
      (tp * (1 - effectiveMaxSlippageBps env / 10000)) (some tp)).passed = true := by
  simp only [checkSlippageGate]
  rw [if_neg (not_le.mpr htp)]
  have hslip : (tp - tp * (1 - effectiveMaxSlippageBps env / 10000)) / tp * 10000
      = effectiveMaxSlippageBps env := by
    field_simp
    ring
  simp only [hslip, lt_self_iff_false, if_false]
  simp

theorem executeLoopGo_orders_bound (env : Env) (request : OrderRequest)
    (key : String) (tp : Rat) (hreq : request.traderPrice = some tp)
    (htp : 0 < tp) (steps : List LoopStep) : ∀ (s : LoopState) (o : SubOrder),
    o ∈ (executeLoopGo env request key steps s).2 →
    (request.side = OrderSide.BUY →
      o.price ≤ tp * (1 + effectiveMaxSlippageBps env / 10000))
    ∧ (request.side ≠ OrderSide.BUY →
      tp * (1 - effectiveMaxSlippageBps env / 10000) ≤ o.price) := by
  induction steps with
  | nil =>
    intro s o ho
    simp [executeLoopGo] at ho
  | cons step rest ih =>
    intro s o ho
    simp only [executeLoopGo] at ho
    by_cases hc : ¬(0 < s.remaining ∧ s.retry < env.RETRY_LIMIT)
    · rw [if_pos hc] at ho
      simp at ho
    rw [if_neg hc] at ho
    by_cases hbuy : request.side = OrderSide.BUY
    · rw [if_pos hbuy] at ho
      split at ho
      · simp at ho
      rename_i a0 more heqa
      generalize hba :
          (a0 :: more).foldl (fun m x => if x.price < m.price then x else m) a0
            = bestAsk at ho
      by_cases hgate : (checkSlippageGate env OrderSide.BUY bestAsk.price
          request.traderPrice).passed = false
      · rw [if_pos hgate] at ho
        simp at ho
      rw [if_neg hgate] at ho
      simp only [Bool.not_eq_false] at hgate
      rw [hreq] at hgate
      by_cases hmin : s.remaining < MIN_ORDER_SIZE_USD
      · rw [if_pos hmin] at ho
        simp at ho
      rw [if_neg hmin] at ho
      split at ho
      · rename_i oid heqo
        simp only [List.mem_cons] at ho
        rcases ho with rfl | hmem
        · refine ⟨fun _ => ?_, fun hne => absurd hbuy hne⟩
          exact checkSlippageGate_buy_bound env bestAsk.price tp htp hgate
        · exact ih _ o hmem
      · rename_i msg heqm
        by_cases hins : isInsufficientBalanceOrAllowanceError msg = true
        · rw [if_pos hins] at ho
          simp only [List.mem_singleton] at ho
          subst ho
          refine ⟨fun _ => ?_, fun hne => absurd hbuy hne⟩
          exact checkSlippageGate_buy_bound env bestAsk.price tp htp hgate
        · rw [if_neg hins] at ho
          simp only [List.mem_cons] at ho
          rcases ho with rfl | hmem
          · refine ⟨fun _ => ?_, fun hne => absurd hbuy hne⟩
            exact checkSlippageGate_buy_bound env bestAsk.price tp htp hgate
          · exact ih _ o hmem
    · rw [if_neg hbuy] at ho
      split at ho
      · simp at ho
      rename_i b0 more heqb
      generalize hbb :
          (b0 :: more).foldl (fun m x => if m.price < x.price then x else m) b0
            = bestBid at ho
      by_cases hmin : s.remaining < MIN_ORDER_SIZE_TOKENS
      · rw [if_pos hmin] at ho
        simp at ho
      rw [if_neg hmin] at ho
      by_cases hmin2 : min s.remaining bestBid.size < MIN_ORDER_SIZE_TOKENS
      · rw [if_pos hmin2] at ho
        simp at ho
      rw [if_neg hmin2] at ho
      by_cases hgate : (checkSlippageGate env OrderSide.SELL bestBid.price
          request.traderPrice).passed = false
      · rw [if_pos hgate] at ho
        simp at ho
      rw [if_neg hgate] at ho
      simp only [Bool.not_eq_false] at hgate
      rw [hreq] at hgate
      split at ho
      · rename_i oid heqo
        simp only [List.mem_cons] at ho
        rcases ho with rfl | hmem
        · refine ⟨fun hside => absurd hside hbuy, fun _ => ?_⟩
          exact checkSlippageGate_sell_bound env bestBid.price tp htp hgate
        · exact ih _ o hmem
      · rename_i msg heqm
        by_cases hins : isInsufficientBalanceOrAllowanceError msg = true
        · rw [if_pos hins] at ho
          simp only [List.mem_singleton] at ho
          subst ho
          refine ⟨fun hside => absurd hside hbuy, fun _ => ?_⟩
          exact checkSlippageGate_sell_bound env bestBid.price tp htp hgate
        · rw [if_neg hins] at ho
          simp only [List.mem_cons] at ho
          rcases ho with rfl | hmem
          · refine ⟨fun hside => absurd hside hbuy, fun _ => ?_⟩
            exact checkSlippageGate_sell_bound env bestBid.price tp htp hgate
          · exact ih _ o hmem

theorem checkMarketViability_exit_time_passed (env : Env) (now : Rat)
    (book : Option OrderBook) (endDate : Option Rat) :
    (checkMarketViability env now book endDate true).checks.timeToEnd.passed
      = true := by
  unfold checkMarketViability
  cases book with
  | none => simp [initialViabilityChecks]
  | some ob =>
    simp only
    split
    · simp [initialViabilityChecks]
    split
    · simp [initialViabilityChecks]
    split
    · rename_i hcond
      cases hx : endDate.map (fun e => (e - now) / (1000 * 60)) with
      | none => rw [hx] at hcond; simp at hcond
      | some m => rw [hx] at hcond; simp at hcond
    split
    · simp [initialViabilityChecks]
    split
    · simp [initialViabilityChecks]
    · simp [initialViabilityChecks]

theorem checkIdempotency_marked (getIdem : Option (Option IdempotencyRecord))
    (trade : TradeRecord) (request : OrderRequest) (tid ua : String)
    (hid : request.tradeId = some tid) (hua : request.userAddress = some ua)
    (hctx : ∀ r, getIdem = some (some r) → r.status ≠ IdemStatus.completed)
    (hkey : trade.idempotencyKey.isSome = true ∨ trade.clobOrderId.isSome = true) :
    checkIdempotency getIdem (some trade) request =
      { skip := true, existingOrderId := trade.clobOrderId
        existingKey := trade.idempotencyKey } := by
  have hrest : (if trade.idempotencyKey.isSome ∧
        trade.lifecycleState = LifecycleState.executed then
      ({ skip := true, existingOrderId := trade.clobOrderId
         existingKey := trade.idempotencyKey } : IdemCheckResult)
    else if trade.idempotencyKey.isSome then
      { skip := true, existingOrderId := trade.clobOrderId
        existingKey := trade.idempotencyKey }
    else if trade.clobOrderId.isSome then
      { skip := true, existingOrderId := trade.clobOrderId
        existingKey := trade.idempotencyKey }
    else { skip := false }) =
      { skip := true, existingOrderId := trade.clobOrderId
        existingKey := trade.idempotencyKey } := by
    by_cases h1 : trade.idempotencyKey.isSome = true ∧
        trade.lifecycleState = LifecycleState.executed
    · rw [if_pos h1]
    · rw [if_neg h1]
      by_cases h2 : trade.idempotencyKey.isSome = true
      · rw [if_pos h2]
      · rw [if_neg h2]
        have h3 : trade.clobOrderId.isSome = true := hkey.resolve_left h2
        rw [if_pos h3]
  rcases getIdem with _ | gi
  · simp only [checkIdempotency, hid, hua]
    exact hrest
  · rcases gi with _ | r
    · simp only [checkIdempotency, hid, hua]
      exact hrest
    · simp only [checkIdempotency, hid, hua]
      rw [if_neg (hctx r rfl)]
      exact hrest

theorem leaseCasMatches_iff (r : TradeRecord) (now : Rat) :
    leaseCasMatches r now = true ↔
      (r.claimedBy = none ∨ ∃ e, r.leaseExpiresAt = some e ∧ e < now) := by
  unfold leaseCasMatches leaseExpired
  rcases hle : r.leaseExpiresAt with _ | e <;>
    simp [hle, Option.isNone_iff_eq_none]

theorem clearExpiredMatches_iff (now : Rat) (r : TradeRecord) :
    clearExpiredMatches now r = true ↔
      (r.claimedBy.isSome = true ∧ leaseExpired r now = true ∧
        r.lifecycleState = LifecycleState.claimed) := by
  unfold clearExpiredMatches
  simp [and_assoc]

/-- C1 (amended): for every `OrderResult` returned by `executeOrderGuarded`
and by its inner execution loop, `skipped` and `failed` are never both true,
and `executed` is true together with `skipped` or with `failed` exactly in
the partial-fill situations, where `filledTokens` is positive; when nothing
was filled the three flags are mutually exclusive.  The original claim (full
mutual exclusion) fails: the mid-loop slippage return and the
insufficient-funds and retry-exhaustion classifications all set
`executed = totalFilledTokens > 0` alongside `skipped` or `failed`. -/
theorem orderResult_terminal_flags :
    (∀ (w : GuardWorld) (request : OrderRequest),
      FlagsOk (executeOrderGuarded w request).result)
    ∧ (∀ (env : Env) (request : OrderRequest) (key : String)
        (steps : List LoopStep) (s : LoopState),
      FlagsOk (executeLoopGo env request key steps s).1) :=
  ⟨executeOrderGuarded_flagsOk,
    fun env request key steps s => executeLoopGo_flagsOk env request key steps s⟩

/-- C1 counterexample: after a partial fill of 10 tokens, a slippage stop
makes `executeOrderGuarded` return a result with `executed` and `skipped`
both true, refuting mutual exclusion as claimed. -/
theorem orderResult_flags_counterexample :
    (executeOrderGuarded worldC1 reqC1).result.executed = true ∧
    (executeOrderGuarded worldC1 reqC1).result.skipped = true ∧
    (executeOrderGuarded worldC1 reqC1).result.filledTokens = some 10 := by
  decide

/-- C1 witness: the amended theorem applied at the concrete partial-fill run
forces the recorded fill to be positive. -/
theorem orderResult_terminal_flags_witness :
    0 < (executeOrderGuarded worldC1 reqC1).result.filledTokens.getD 0 := by
  have h := orderResult_terminal_flags.1 worldC1 reqC1
  exact h.2.1 (by decide) (by decide)

/-- C2 (amended): for a request with a `tradeId` and `userAddress` that
passes the timestamp gate, whose context idempotency record (if any) is not
completed, and whose persisted record has a non-null `idempotencyKey` or a
non-null `clobOrderId`, `executeOrderGuarded` returns skipped with reason
`idempotency_already_executed` together with the persisted order id and
submits no order; in particular a record with a non-null `idempotencyKey`
never causes a fresh order placement.  Lifecycle state `executed` alone
(null key and null order id) does not trigger the skip. -/
theorem idempotency_skip_amended (w : GuardWorld) (request : OrderRequest)
    (trade : TradeRecord) (tid ua : String) (hid : request.tradeId = some tid)
    (hua : request.userAddress = some ua) (hdb : w.dbTrade = some trade)
    (hts : (checkTimestampGate w.env w.now request).passed = true)
    (hctx : ∀ r, w.getIdemRecord = some (some r) →
      r.status ≠ IdemStatus.completed)
    (hkey : trade.idempotencyKey.isSome = true ∨ trade.clobOrderId.isSome = true) :
    (executeOrderGuarded w request).result =
      { success := true, executed := false, skipped := true, failed := false
        reason := some "idempotency_already_executed"
        orderId := trade.clobOrderId, idempotencyKey := trade.idempotencyKey }
    ∧ (executeOrderGuarded w request).orders = [] := by
  have hidem : checkIdempotency w.getIdemRecord w.dbTrade request =
      { skip := true, existingOrderId := trade.clobOrderId
        existingKey := trade.idempotencyKey } := by
    rw [hdb]
    exact checkIdempotency_marked w.getIdemRecord trade request tid ua hid hua
      hctx hkey
  unfold executeOrderGuarded
  rw [if_neg (by simp [hts])]
  rw [hidem, if_pos rfl]
  exact ⟨rfl, rfl⟩

/-- C2 counterexample: a persisted record in lifecycle state `executed` with
null `idempotencyKey` and null `clobOrderId` is not skipped: the guarded
executor proceeds and submits a fresh order, refuting the claim's
`or lifecycle state executed` disjunct. -/
theorem idempotency_state_executed_counterexample :
    (executeOrderGuarded worldC2 reqC2).result.skipped = false ∧
    (executeOrderGuarded worldC2 reqC2).result.executed = true ∧
    (executeOrderGuarded worldC2 reqC2).result.reason ≠
      some "idempotency_already_executed" ∧
    (executeOrderGuarded worldC2 reqC2).orders ≠ [] := by
  decide

/-- C2 witness: with a persisted non-null idempotency key the amended theorem
yields the skip with the persisted order id and no submitted order. -/
theorem idempotency_skip_amended_witness :
    (executeOrderGuarded worldC2w reqC2).result.reason =
      some "idempotency_already_executed" ∧
    (executeOrderGuarded worldC2w reqC2).result.orderId = some "O9" ∧
    (executeOrderGuarded worldC2w reqC2).orders = [] := by
  have h := idempotency_skip_amended worldC2w reqC2 tradeWithKey "t1" "0xu" rfl
    rfl rfl (by decide) (fun r hr => Option.noConfusion hr) (Or.inl rfl)
  exact ⟨by rw [h.1], by rw [h.1]; decide, h.2⟩

/-- C3: with a positive trader price, every sub-order the execution loop
submits is priced within the effective slippage cap
(`min MAX_SLIPPAGE_BPS 1000` bps) of the trader price — at most
`tp * (1 + cap/10000)` for BUY and at least `tp * (1 - cap/10000)` for
SELL/MERGE — and a price exactly at the cap still passes the gate, so the
blocked branch can only trigger strictly beyond the cap. -/
theorem slippage_cap_bounds_suborders (env : Env) (request : OrderRequest)
    (key : String) (steps : List LoopStep) (s : LoopState) (tp : Rat)
    (hreq : request.traderPrice = some tp) (htp : 0 < tp) :
    effectiveMaxSlippageBps env = min env.MAX_SLIPPAGE_BPS 1000
    ∧ (∀ o ∈ (executeLoopGo env request key steps s).2,
        (request.side = OrderSide.BUY →
          o.price ≤ tp * (1 + effectiveMaxSlippageBps env / 10000))
        ∧ (request.side ≠ OrderSide.BUY →
          tp * (1 - effectiveMaxSlippageBps env / 10000) ≤ o.price))
    ∧ (checkSlippageGate env OrderSide.BUY
        (tp * (1 + effectiveMaxSlippageBps env / 10000)) (some tp)).passed = true
    ∧ (checkSlippageGate env OrderSide.SELL
        (tp * (1 - effectiveMaxSlippageBps env / 10000)) (some tp)).passed
        = true := by
  refine ⟨rfl, ?_, checkSlippageGate_buy_cap_allowed env tp htp,
    checkSlippageGate_sell_cap_allowed env tp htp⟩
  intro o ho
  exact executeLoopGo_orders_bound env request key tp hreq htp steps s o ho

/-- C3 witness: at trader price 0.50 under the default 500 bps cap, an ask
exactly at the cap passes the slippage gate. -/
theorem slippage_cap_bounds_suborders_witness :
    (checkSlippageGate defaultEnv OrderSide.BUY
      (1 / 2 * (1 + effectiveMaxSlippageBps defaultEnv / 10000))
      (some (1 / 2))).passed = true := by
  have h := slippage_cap_bounds_suborders defaultEnv reqC3 "k" []
    (initialLoopState reqC3) (1 / 2) rfl (by norm_num)
  exact h.2.2.1

/-- C4: when `checkMarketViability` reports not viable, a BUY always fails
the viability gate; for SELL/MERGE the gate fails exactly when the spread or
depth check failed, a price-extreme failure leads to a warn-only pass, and
the time-to-end check is never applied on the exit path (its `passed` flag is
always true when `isSellReducingExposure` holds). -/
theorem viability_gate_buy_hard_sell_soft (env : Env) (now : Rat)
    (book : Option OrderBook) (request : OrderRequest) :
    (request.side = OrderSide.BUY →
      (checkMarketViability env now book request.endDate
          (isExitSide request.side)).viable = false →
      (checkViabilityGate env now book request).passed = false)
    ∧ (isExitSide request.side = true →
        ((checkViabilityGate env now book request).passed = false ↔
          ((checkMarketViability env now book request.endDate true).viable
              = false ∧
            ((checkMarketViability env now book
                request.endDate true).checks.spread.passed = false ∨
             (checkMarketViability env now book
                request.endDate true).checks.depth.passed = false)))
        ∧ (checkMarketViability env now book
            request.endDate true).checks.timeToEnd.passed = true
        ∧ ((checkMarketViability env now book request.endDate true).viable
              = false →
            (checkMarketViability env now book
              request.endDate true).checks.spread.passed = true →
            (checkMarketViability env now book
              request.endDate true).checks.depth.passed = true →
            (checkViabilityGate env now book request).passed = true ∧
            (checkViabilityGate env now book request).shouldWarnOnly
              = true)) := by
  constructor
  · intro hbuy hnv
    simp only [checkViabilityGate]
    by_cases hed : request.endDate = none
    · rw [if_pos ⟨hbuy, hed⟩]
    · rw [if_neg (by intro hand; exact hed hand.2)]
      rw [if_pos hnv, if_pos hbuy]
  · intro hexit
    have hnb : ¬(request.side = OrderSide.BUY) := by
      intro hb
      rcases of_decide_eq_true hexit with h | h <;> rw [hb] at h <;> simp at h
    have htime :=
      checkMarketViability_exit_time_passed env now book request.endDate
    refine ⟨?_, htime, ?_⟩
    · simp only [checkViabilityGate, hexit]
      rw [if_neg (by intro hand; exact hnb hand.1)]
      by_cases hv : (checkMarketViability env now book request.endDate
          true).viable = false
      · rw [if_pos hv, if_neg hnb]
        by_cases hsd :
            (checkMarketViability env now book
              request.endDate true).checks.spread.passed = false ∨
            (checkMarketViability env now book
              request.endDate true).checks.depth.passed = false
        · rw [if_pos hsd]
          simp [hv, hsd]
        · rw [if_neg hsd]
          simp [hsd]
      · rw [if_neg hv]
        simp [hv]
    · intro hv hsp hdp
      simp only [checkViabilityGate, hexit]
      rw [if_neg (by intro hand; exact hnb hand.1)]
      rw [if_pos hv, if_neg hnb]
      rw [if_neg (by rw [hsp, hdp]; simp)]
      exact ⟨rfl, rfl⟩

/-- C4 witness: for a concrete SELL request over a healthy book the exit-path
components of the theorem evaluate: the time-to-end check reads passed and the
gate lets the SELL through. -/
theorem viability_gate_buy_hard_sell_soft_witness :
    isExitSide reqC4sell.side = true ∧
    (checkMarketViability defaultEnv 0 (some goodBook) reqC4sell.endDate
      true).checks.timeToEnd.passed = true ∧
    (checkViabilityGate defaultEnv 0 (some goodBook) reqC4sell).passed
      = true := by
  have h := viability_gate_buy_hard_sell_soft defaultEnv 0 (some goodBook)
    reqC4sell
  have hexit : isExitSide reqC4sell.side = true := by decide
  exact ⟨hexit, (h.2 hexit).2.1, by decide⟩

/-- C5: `acquireLease` succeeds exactly when the record is unclaimed, or its
lease has expired, or it is already claimed by the same worker; a matching
compare-and-set writes exactly `claimedBy`, `leaseExpiresAt = now + timeout`,
`claimedAt = now` and lifecycle state `claimed`, and a failed call leaves the
record unchanged. -/
theorem acquireLease_cas_semantics (r : TradeRecord) (now leaseTimeoutMs : Rat)
    (workerId : String) :
    ((acquireLease r now leaseTimeoutMs workerId).1 = true ↔
      (r.claimedBy = none ∨ (∃ e, r.leaseExpiresAt = some e ∧ e < now) ∨
        r.claimedBy = some workerId))
    ∧ (leaseCasMatches r now = true →
        (acquireLease r now leaseTimeoutMs workerId).2 =
          { r with claimedBy := some workerId
                   leaseExpiresAt := some (now + leaseTimeoutMs)
                   claimedAt := some now
                   lifecycleState := LifecycleState.claimed })
    ∧ ((acquireLease r now leaseTimeoutMs workerId).1 = false →
        (acquireLease r now leaseTimeoutMs workerId).2 = r) := by
  unfold acquireLease
  by_cases hcas : leaseCasMatches r now = true
  · rw [if_pos hcas]
    refine ⟨?_, fun _ => rfl, fun h => by cases h⟩
    constructor
    · intro _
      rcases (leaseCasMatches_iff r now).mp hcas with h | h
      · exact Or.inl h
      · exact Or.inr (Or.inl h)
    · intro _
      rfl
  · rw [if_neg hcas]
    by_cases hw : r.claimedBy = some workerId
    · rw [if_pos hw]
      refine ⟨?_, fun hc => absurd hc hcas, fun h => by cases h⟩
      exact ⟨fun _ => Or.inr (Or.inr hw), fun _ => rfl⟩
    · rw [if_neg hw]
      refine ⟨?_, fun hc => absurd hc hcas, fun _ => rfl⟩
      constructor
      · intro h
        cases h
      · intro h
        rcases h with h | h | h
        · exact absurd ((leaseCasMatches_iff r now).mpr (Or.inl h)) hcas
        · exact absurd ((leaseCasMatches_iff r now).mpr (Or.inr h)) hcas
        · exact absurd h hw

/-- C5 witness: acquiring an unclaimed record at time 5 with a 30000 ms
timeout succeeds and writes exactly the four lease fields. -/
theorem acquireLease_cas_semantics_witness :
    (acquireLease recC5 5 30000 "w1").1 = true ∧
    (acquireLease recC5 5 30000 "w1").2 =
      { recC5 with claimedBy := some "w1", leaseExpiresAt := some 30005
                   claimedAt := some 5
                   lifecycleState := LifecycleState.claimed } := by
  have h := acquireLease_cas_semantics recC5 5 30000 "w1"
  refine ⟨h.1.mpr (Or.inl rfl), ?_⟩
  rw [h.2.1 (by decide)]
  decide

/-- C6: `clearExpiredLeases` is the per-record map that modifies exactly the
records in state `claimed` with a non-null `claimedBy` and an expired lease,
resetting exactly `claimedBy`, `leaseExpiresAt` and the lifecycle state (to
`detected`); a record in state `executing` with an expired lease is left
unchanged and is returned by `findStuckTrades`, which returns exactly the
executing-with-expired-lease records. -/
theorem clearExpiredLeases_frame (now : Rat) (records : List TradeRecord)
    (r : TradeRecord) (hr : r ∈ records) :
    (¬(r.lifecycleState = LifecycleState.claimed ∧ r.claimedBy.isSome = true ∧
        leaseExpired r now = true) → clearExpiredOne now r = r)
    ∧ ((r.lifecycleState = LifecycleState.claimed ∧ r.claimedBy.isSome = true ∧
        leaseExpired r now = true) →
        clearExpiredOne now r =
          { r with claimedBy := none, leaseExpiresAt := none
                   lifecycleState := LifecycleState.detected })
    ∧ clearExpiredLeases now records = records.map (clearExpiredOne now)
    ∧ (r.lifecycleState = LifecycleState.executing → leaseExpired r now = true →
        clearExpiredOne now r = r ∧ r.id ∈ findStuckTrades now records)
    ∧ (∀ i ∈ findStuckTrades now records, ∃ rr ∈ records, rr.id = i ∧
        rr.lifecycleState = LifecycleState.executing ∧
        leaseExpired rr now = true) := by
  refine ⟨?_, ?_, rfl, ?_, ?_⟩
  · intro h
    unfold clearExpiredOne
    rw [if_neg]
    intro hm
    rcases (clearExpiredMatches_iff now r).mp hm with ⟨h1, h2, h3⟩
    exact h ⟨h3, h1, h2⟩
  · intro ⟨h1, h2, h3⟩
    unfold clearExpiredOne
    rw [if_pos ((clearExpiredMatches_iff now r).mpr ⟨h2, h3, h1⟩)]
  · intro hexec hexp
    constructor
    · unfold clearExpiredOne
      rw [if_neg]
      intro hm
      rcases (clearExpiredMatches_iff now r).mp hm with ⟨_, _, h3⟩
      rw [hexec] at h3
      cases h3
    · unfold findStuckTrades
      refine List.mem_map.mpr ⟨r, ?_, rfl⟩
      refine List.mem_filter.mpr ⟨hr, ?_⟩
      rw [hexec, hexp]
      simp
  · intro i hi
    unfold findStuckTrades at hi
    rcases List.mem_map.mp hi with ⟨rr, hmem, rfl⟩
    rcases List.mem_filter.mp hmem with ⟨hrr, hp⟩
    refine ⟨rr, hrr, rfl, ?_, ?_⟩
    · rcases Bool.and_eq_true_iff.mp hp with ⟨h1, _⟩
      exact of_decide_eq_true h1
    · rcases Bool.and_eq_true_iff.mp hp with ⟨_, h2⟩
      exact h2

/-- C6 witness: a record in state `executing` whose lease expired at 1 is
untouched by lease clearing at time 10 and surfaces as stuck. -/
theorem clearExpiredLeases_frame_witness :
    clearExpiredOne 10 recC6 = recC6 ∧ "r6" ∈ findStuckTrades 10 [recC6] := by
  have h := clearExpiredLeases_frame 10 [recC6] recC6 (by simp)
  exact h.2.2.2.1 rfl (by decide)

/-- C7: the timestamp gate passes every request without a `tradeId`; with a
`tradeId` it fails closed on a missing `tradeTimestamp` (the guarded executor
then skips with reason `missing_trade_timestamp` and submits nothing); and
for an epoch-second timestamp an age of exactly
`TOO_OLD_TIMESTAMP_HOURS × 3600` seconds passes while one second more
fails. -/
theorem timestamp_gate_boundary (env : Env) (now : Rat) (w : GuardWorld)
    (request : OrderRequest) (i : String) (ts : Rat) :
    (request.tradeId = none → (checkTimestampGate env now request).passed = true)
    ∧ (request.tradeId = some i → request.tradeTimestamp = none →
        (checkTimestampGate w.env w.now request).passed = false ∧
        (checkTimestampGate w.env w.now request).reason =
          some "missing_trade_timestamp" ∧
        (executeOrderGuarded w request).result.skipped = true ∧
        (executeOrderGuarded w request).result.executed = false ∧
        (executeOrderGuarded w request).result.failed = false ∧
        (executeOrderGuarded w request).result.reason =
          some "missing_trade_timestamp" ∧
        (executeOrderGuarded w request).orders = [])
    ∧ (request.tradeId = some i → request.tradeTimestamp = some ts →
        ts < 1000000000000 →
        (now - ts * 1000 = env.TOO_OLD_TIMESTAMP_HOURS * 60 * 60 * 1000 →
          (checkTimestampGate env now request).passed = true)
        ∧ (now - ts * 1000 =
              env.TOO_OLD_TIMESTAMP_HOURS * 60 * 60 * 1000 + 1000 →
          (checkTimestampGate env now request).passed = false)) := by
  refine ⟨?_, ?_, ?_⟩
  · intro h
    simp [checkTimestampGate, h]
  · intro hid hts
    have hg : checkTimestampGate w.env w.now request =
        { passed := false, reason := some "missing_trade_timestamp" } := by
      simp [checkTimestampGate, hid, hts]
    refine ⟨by rw [hg], by rw [hg], ?_, ?_, ?_, ?_, ?_⟩ <;>
      · unfold executeOrderGuarded
        rw [hg]
        rfl
  · intro hid hts hsec
    simp only [checkTimestampGate, hid, hts]
    rw [if_pos hsec]
    constructor
    · intro heq
      rw [heq, if_pos le_rfl]
    · intro heq
      rw [heq, if_neg (by intro hle; linarith)]

/-- C7 witness: with the 24-hour default, a second-zero timestamp passes at
`now = 86400000` ms (exactly 24 h) and fails at `now = 86401000` ms (one
second more); a request with a `tradeId` and no timestamp is skipped with
reason `missing_trade_timestamp`. -/
theorem timestamp_gate_boundary_witness :
    (checkTimestampGate defaultEnv 86400000 reqC7boundary).passed = true ∧
    (checkTimestampGate defaultEnv 86401000 reqC7boundary).passed = false ∧
    (executeOrderGuarded worldC7 reqC7missing).result.skipped = true ∧
    (executeOrderGuarded worldC7 reqC7missing).result.reason =
      some "missing_trade_timestamp" := by
  have h1 := timestamp_gate_boundary defaultEnv 86400000 worldC7 reqC7boundary
    "t7" 0
  have h2 := timestamp_gate_boundary defaultEnv 86401000 worldC7 reqC7boundary
    "t7" 0
  have h3 := timestamp_gate_boundary defaultEnv 0 worldC7 reqC7missing "t7" 0
  refine ⟨?_, ?_, ?_, ?_⟩
  · exact (h1.2.2 rfl rfl (by norm_num)).1 (by norm_num [defaultEnv])
  · exact (h2.2.2 rfl rfl (by norm_num)).2 (by norm_num [defaultEnv])
  · exact (h3.2.1 rfl rfl).2.2.1
  · exact (h3.2.1 rfl rfl).2.2.2.2.2.1

/-- C8: the reconciler emits a discrepancy for an expected position exactly
when the difference to the actual size exceeds
`max (1% of expected) 0.1`, records the code's percentage difference, grades
it critical above 20 percent, warning above 5 percent and info otherwise,
and every actual position without an expected counterpart is emitted with
severity warning. -/
theorem reconciliation_discrepancy_rules (expected : List (String × ExpectedPos))
    (actual : List (String × ActualPos)) (p : String × ExpectedPos)
    (q : String × ActualPos) (d : PositionDiscrepancy) :
    ((discOfExpected actual p).isSome = true ↔
      max (p.2.size * (1 / 100)) (1 / 10) < |actualSizeOf actual p.1 - p.2.size|)
    ∧ (discOfExpected actual p = some d →
        d.differencePercent = (if 0 < p.2.size then
          (actualSizeOf actual p.1 - p.2.size) / p.2.size * 100 else 0)
        ∧ d.severity = (if 20 < |d.differencePercent| then Severity.critical
            else if 5 < |d.differencePercent| then Severity.warning
            else Severity.info))
    ∧ (p ∈ expected → discOfExpected actual p = some d →
        d ∈ (runReconciliation expected actual).discrepancies)
    ∧ (q ∈ actual → (expected.find? (fun x => x.1 = q.1)) = none →
        ∃ du, discOfUnknown expected q = some du ∧
          du.severity = Severity.warning ∧ du.expectedSize = 0 ∧
          du.actualSize = q.2.size ∧
          du ∈ (runReconciliation expected actual).discrepancies) := by
  refine ⟨?_, ?_, ?_, ?_⟩
  · simp only [discOfExpected]
    by_cases h : |actualSizeOf actual p.1 - p.2.size| ≤
        max (p.2.size * (1 / 100)) (1 / 10)
    · rw [if_pos h]
      exact iff_of_false (by simp) (not_lt.mpr h)
    · rw [if_neg h]
      exact iff_of_true rfl (not_le.mp h)
  · intro hd
    simp only [discOfExpected] at hd
    split at hd
    · cases hd
    · cases hd
      exact ⟨rfl, rfl⟩
  · intro hp hd
    unfold runReconciliation
    exact List.mem_append_left _ (List.mem_filterMap.mpr ⟨p, hp, hd⟩)
  · intro hq hnone
    have hdu : discOfUnknown expected q =
        some { asset := q.1, conditionId := q.2.conditionId, slug := q.2.slug
               expectedSize := 0, actualSize := q.2.size
               difference := q.2.size, differencePercent := 100
               severity := Severity.warning } := by
      unfold discOfUnknown
      rw [hnone]
      rfl
    refine ⟨_, hdu, rfl, rfl, rfl, ?_⟩
    unfold runReconciliation
    exact List.mem_append_right _ (List.mem_filterMap.mpr ⟨q, hq, hdu⟩)

/-- C8 witness: with 10 expected and 20 actual tokens of asset A the
reconciler emits a discrepancy, and the position in the unknown asset B is
emitted as a warning discrepancy. -/
theorem reconciliation_discrepancy_rules_witness :
    (discOfExpected actualC8 ("A", { size := 10 })).isSome = true ∧
    (∃ du, discOfUnknown expectedC8 ("B", { size := 5 }) = some du ∧
      du.severity = Severity.warning ∧ du.expectedSize = 0 ∧
      du.actualSize = 5 ∧
      du ∈ (runReconciliation expectedC8 actualC8).discrepancies) := by
  have h := reconciliation_discrepancy_rules expectedC8 actualC8
    ("A", { size := 10 }) ("B", { size := 5 })
    { asset := "A", conditionId := "", slug := none, expectedSize := 0
      actualSize := 0, difference := 0, differencePercent := 0
      severity := Severity.info }
  exact ⟨h.1.mpr (by decide), h.2.2.2 (by decide) (by decide)⟩

/-- C9: when `executeSellGuarded` is called without `myPositionSize` in its
options, the request it builds defaults `myPositionSize` to the sell amount
itself, so for any positive amount the sell-requires-position gate passes
regardless of the follower's real position. -/
theorem executeSellGuarded_position_default (tokenId : String)
    (amountTokens : Rat) (options : SellOptions)
    (hnone : options.myPositionSize = none) :
    (executeSellGuardedRequest tokenId amountTokens options).myPositionSize =
      some amountTokens
    ∧ (0 < amountTokens →
        (checkPositionRequiredForSell
          (executeSellGuardedRequest tokenId amountTokens options)).passed
          = true) := by
  constructor
  · simp [executeSellGuardedRequest, hnone]
  · intro hpos
    simp [checkPositionRequiredForSell, executeSellGuardedRequest, hnone,
      not_le.mpr hpos]

/-- C9 witness: selling 5 tokens through the wrapper with empty options
yields a request with `myPositionSize = some 5` that passes the position
gate. -/
theorem executeSellGuarded_position_default_witness :
    (executeSellGuardedRequest "T" 5
      { myPositionSize := none }).myPositionSize = some 5 ∧
    (checkPositionRequiredForSell
      (executeSellGuardedRequest "T" 5 { myPositionSize := none })).passed
      = true := by
  have h := executeSellGuarded_position_default "T" 5
    { myPositionSize := none } rfl
  exact ⟨h.1, h.2 (by norm_num)⟩

/-- C10: the slippage gate passes whenever the trader price is absent, zero
or negative, and in that case the execution loop submits sub-orders at any
order-book price: for every price `p` the one-step book with a single ask at
`p` yields a submitted sub-order priced at `p`. -/
theorem slippage_gate_vacuous_without_trader_price (env : Env)
    (side : OrderSide) (currentPrice tp p sz : Rat) :
    ((checkSlippageGate env side currentPrice none).passed = true)
    ∧ (tp ≤ 0 → (checkSlippageGate env side currentPrice (some tp)).passed
        = true)
    ∧ (((executeLoopGo defaultEnv reqNoTraderPrice "key"
          [{ book := { bids := [], asks := [{ price := p, size := sz }] }
             resp := PostResponse.success none }]
          (initialLoopState reqNoTraderPrice)).2).map (fun o => o.price)
        = [p]) := by
  refine ⟨rfl, fun htp => ?_, ?_⟩
  · simp only [checkSlippageGate]
    rw [if_pos htp]
  · simp only [executeLoopGo, initialLoopState, reqNoTraderPrice, defaultEnv,
      checkSlippageGate, MIN_ORDER_SIZE_USD]
    norm_num

/-- C10 witness: a SELL quoted far below a negative trader price passes the
gate, and with no trader price a buy sub-order is submitted at the absurd
price 1000000. -/
theorem slippage_gate_vacuous_without_trader_price_witness :
    (checkSlippageGate defaultEnv OrderSide.SELL (99 / 100)
      (some (-1))).passed = true ∧
    (((executeLoopGo defaultEnv reqNoTraderPrice "key"
        [{ book := { bids := [], asks := [{ price := 1000000, size := 3 }] }
           resp := PostResponse.success none }]
        (initialLoopState reqNoTraderPrice)).2).map (fun o => o.price)
      = [1000000]) := by
  have h := slippage_gate_vacuous_without_trader_price defaultEnv
    OrderSide.SELL (99 / 100) (-1) 1000000 3
  exact ⟨h.2.1 (by norm_num), h.2.2⟩

end Cawpy
